import Mathlib

/-!
Verification of the email-classifier repository's workflow filtering-and-
execution contract, the classification adjunct, and the storage layer's
labelling semantics.

The embedding below is a shallow model of:
  - `src/shared/schema.ts` (tables `emails`, `labels`, `emailLabels`,
    `workflows`, `workflowExecutions`),
  - `src/unnamed/part_001` (class `DatabaseStorage`),
  - `src/EmailManager/server/openai.ts` (`classifyEmail`,
    `generateWorkflowSummary`),
  - `src/EmailManager/server/routes.ts` (the `POST /api/workflows/:id/execute`
    and `POST /api/emails/:id/classify` handlers).

Modelling conventions:
  - Database-generated uuids for rows created during a modelled operation
    (`emailLabels.id`, `workflowExecutions.id`) are modelled as fresh natural
    numbers (the current row count), which is faithful to the single property
    `gen_random_uuid()` guarantees here: a fresh value that never collides
    with an existing primary key.
  - Timestamps are natural numbers; `new Date()` / `defaultNow()` is an
    injected `now : Nat` parameter.
  - The email → emailAccount → user owning chain is collapsed: the model's
    `Email.userId` stands for the owning account's `userId`, which is the only
    part of the chain the queries in `src/unnamed/part_001` consult
    (`innerJoin(emailAccounts …).where(eq(emailAccounts.userId, userId))`).
  - The two outbound OpenAI calls are abstracted by outcome parameters
    (`SummaryOutcome`, `ClassifyOutcome`) describing what the external model
    returned (or that the call/parse threw); every branch the TypeScript
    takes on that response is modelled. Each modelled function additionally
    returns the number of external model calls it performed.
-/

namespace EmailClassifier

/-- Row of the `labels` table (src/shared/schema.ts:116-125): id, owning
user, name, color; `description`/`createdAt` omitted as inert. -/
structure Label where
  id : String
  userId : String
  name : String
  color : String
  deriving DecidableEq, Repr

/-- Row of the `emails` table (src/shared/schema.ts:81-97); `userId` is the
owning account's user id (collapsed chain, see module comment). -/
structure Email where
  id : String
  userId : String
  subject : String
  sender : String
  senderEmail : String
  receivedAt : Nat
  bodyPreview : String
  isRead : Bool
  deriving DecidableEq, Repr

/-- Row of the `email_labels` table (src/shared/schema.ts:144-153). The table
declares a primary key on `id` and two non-unique indexes
(`email_labels_email_id_idx`, `email_labels_label_id_idx`); it declares NO
unique constraint on the (emailId, labelId) pair. -/
structure EmailLabelRow where
  id : Nat
  emailId : String
  labelId : String
  isAuto : Bool
  deriving DecidableEq, Repr

/-- Row of the `workflows` table (src/shared/schema.ts:175-189). `filters` is a
jsonb column; the execute route reads only `filters.labelIds`
(src/EmailManager/server/routes.ts:341), so the model keeps that field:
`none` stands for a filters object without a `labelIds` key. -/
structure Workflow where
  id : String
  userId : String
  name : String
  frequency : String
  filterLabelIds : Option (List String)
  prompt : String
  isActive : Bool
  lastRunAt : Option Nat
  nextRunAt : Option Nat
  deriving DecidableEq, Repr

/-- Row of the `workflow_executions` table (src/shared/schema.ts:208-217). -/
structure WorkflowExecution where
  id : Nat
  workflowId : String
  summary : String
  emailCount : Nat
  executedAt : Nat
  deriving DecidableEq, Repr

/-- The relational state the modelled operations read and write. -/
structure Db where
  labels : List Label
  emails : List Email
  emailLabels : List EmailLabelRow
  workflows : List Workflow
  executions : List WorkflowExecution
  deriving DecidableEq, Repr

/-- An email joined with its label associations, mirroring the
`EmailWithLabels` type (src/shared/schema.ts:235-237): the email plus the
list of (`emailLabels` row, `labels` row) pairs. -/
structure EmailWithLabels where
  email : Email
  labels : List (EmailLabelRow × Label)
  deriving DecidableEq, Repr

/-- Model of `DatabaseStorage.getLabelsByUserId` (src/unnamed/part_001:218-224):
labels whose `userId` matches. (The `orderBy(labels.name)` clause is kept
as the filter's output order; no claim depends on label ordering.) -/
def getLabelsByUserId (userId : String) (db : Db) : List Label :=
  db.labels.filter fun l => l.userId == userId

/-- Model of `DatabaseStorage.getLabelById` (src/unnamed/part_001:226-232):
the label matching both id and owning user, if any. -/
def getLabelById (labelId userId : String) (db : Db) : Option Label :=
  db.labels.find? fun l => l.id == labelId && l.userId == userId

/-- The left-join of one email with its `emailLabels` rows and their labels,
as both email queries build it: a row with a dangling `labelId` (no matching
label) is dropped, mirroring `if (row.emailLabel && row.label)`
(src/unnamed/part_001:153, 185). -/
def joinLabels (e : Email) (db : Db) : EmailWithLabels :=
  { email := e
    labels := (db.emailLabels.filter fun r => r.emailId == e.id).filterMap
      fun r => (db.labels.find? fun l => l.id == r.labelId).map fun l => (r, l) }

/-- Model of `DatabaseStorage.getEmailsByUserId` (src/unnamed/part_001:128-162): all
of the user's emails, each with its label associations, newest first. The
model keeps the stored order and leaves `receivedAt` ordering abstract (the
claims only require that the filter preserves the input order). -/
def getEmailsByUserId (userId : String) (db : Db) : List EmailWithLabels :=
  (db.emails.filter fun e => e.userId == userId).map fun e => joinLabels e db

/-- Model of `DatabaseStorage.getEmailById` (src/unnamed/part_001:164-194):
the email matching both id and owning user, with its label associations, if
any. -/
def getEmailById (emailId userId : String) (db : Db) : Option EmailWithLabels :=
  (db.emails.find? fun e => e.id == emailId && e.userId == userId).map
    fun e => joinLabels e db

/-- Model of `DatabaseStorage.getWorkflowById` (src/unnamed/part_001:296-302):
`where(and(eq(workflows.id, workflowId), eq(workflows.userId, userId)))`. -/
def getWorkflowById (workflowId userId : String) (db : Db) : Option Workflow :=
  db.workflows.find? fun w => w.id == workflowId && w.userId == userId

/-- Postgres `INSERT … ON CONFLICT DO NOTHING` for the `emailLabels` table
(src/unnamed/part_001:257). A conflict arises only when the new row violates
a unique constraint of the table; per src/shared/schema.ts:144-153 the only
unique constraint on `email_labels` is the primary key `id`, so the insert
is skipped exactly when the generated id already exists. -/
def insertEmailLabelRow (row : EmailLabelRow) (rows : List EmailLabelRow) :
    List EmailLabelRow :=
  if rows.any fun r => r.id == row.id then rows else rows ++ [row]

/-- Model of `DatabaseStorage.addLabelToEmail` (src/unnamed/part_001:248-258): verify
the email and the label both belong to the user (else throw), then insert
the association row with `onConflictDoNothing`. The generated primary key is
modelled as the fresh value `db.emailLabels.length`. -/
def addLabelToEmail (emailId labelId : String) (isAuto : Bool) (userId : String)
    (db : Db) : Except Unit Db :=
  match getEmailById emailId userId db, getLabelById labelId userId db with
  | some _, some _ =>
      .ok { db with
        emailLabels := insertEmailLabelRow
          ⟨db.emailLabels.length, emailId, labelId, isAuto⟩ db.emailLabels }
  | _, _ => .error ()

/-- The number of `emailLabels` rows associating `emailId` with `labelId`. -/
def pairCount (emailId labelId : String) (db : Db) : Nat :=
  (db.emailLabels.filter fun r => r.emailId == emailId && r.labelId == labelId).length

/-- The Filter Evaluator of the execute route
(src/EmailManager/server/routes.ts:340-345):
`if (filters.labelIds && filters.labelIds.length > 0)` keep the emails one
of whose assigned labels' id is in `labelIds`
(`email.labels.some(el => filters.labelIds.includes(el.label.id))`),
otherwise pass the whole list through. -/
def filterByLabels (labelIds : Option (List String))
    (allEmails : List EmailWithLabels) : List EmailWithLabels :=
  match labelIds with
  | some ids =>
      if ids.length > 0 then
        allEmails.filter fun e => e.labels.any fun el => ids.contains el.2.id
      else allEmails
  | none => allEmails

/-- The (subject, sender, bodyPreview) projection the execute route sends to
the summarizer (src/EmailManager/server/routes.ts:352-356). -/
structure EmailData where
  subject : String
  sender : String
  bodyPreview : String
  deriving DecidableEq, Repr

/-- Outcome of the summarization model call inside `generateWorkflowSummary`
(src/EmailManager/server/openai.ts:66-70): either the call threw, or it
returned a response whose `choices[0].message.content` is the given value
(`none` models a null/undefined content field). -/
inductive SummaryOutcome where
  | apiFailure
  | content (s : Option String)
  deriving DecidableEq, Repr

/-- Model of `generateWorkflowSummary` (src/EmailManager/server/openai.ts:51-77).
Empty input returns the fixed string before any model call; a thrown model
call is re-thrown as `Error("Failed to generate summary")` (modelled as
`.error ()`); a falsy content (null or the empty string, per JavaScript
`content || fallback`) becomes the literal fallback. The second component
counts external model calls. -/
def generateWorkflowSummary (emailData : List EmailData) (_customPrompt : String)
    (outcome : SummaryOutcome) : Except Unit String × Nat :=
  if emailData.length == 0 then
    (.ok "No emails found matching the workflow criteria.", 0)
  else
    match outcome with
    | .apiFailure => (.error (), 1)
    | .content s =>
        match s with
        | none => (.ok "Summary generation failed.", 1)
        | some c => (.ok (if c == "" then "Summary generation failed." else c), 1)

/-- Outcome of the classification model call inside `classifyEmail`
(src/EmailManager/server/openai.ts:27-35): the call threw, the returned
content failed to parse as JSON (`JSON.parse` threw), or it parsed to an
object whose `labels` field holds the given names (a missing or null
`labels` field, `result.labels || []`, is modelled as `.parsed []`). -/
inductive ClassifyOutcome where
  | apiFailure
  | parseFailure
  | parsed (labels : List String)
  deriving DecidableEq, Repr

/-- Model of `classifyEmail` (src/EmailManager/server/openai.ts:6-49). Zero available
labels returns `[]` before any model call; any thrown API call or parse
failure is caught and returns `[]`; otherwise the available labels whose
name case-insensitively equals some suggested name are kept and mapped to
their ids. The second component counts external model calls. -/
def classifyEmail (_emailSubject _emailBody : String)
    (availableLabels : List Label) (outcome : ClassifyOutcome) :
    List String × Nat :=
  if availableLabels.length == 0 then ([], 0)
  else
    match outcome with
    | .apiFailure => ([], 1)
    | .parseFailure => ([], 1)
    | .parsed suggestedLabels =>
        ((availableLabels.filter fun label =>
            suggestedLabels.any fun name =>
              name.toLower == label.name.toLower).map (fun l => l.id), 1)

/-- Error taxonomy of the two modelled routes, after the spec's names:
`notFound` (404), `emptySelection` (400 "No emails match"), `notConfigured`
(400 "No labels available"), `upstreamFailure` (the summarizer threw),
`storageFailure` (a storage write threw). -/
inductive ExecError where
  | notFound
  | emptySelection
  | notConfigured
  | upstreamFailure
  | storageFailure
  deriving DecidableEq, Repr

/-- Result of one `POST /api/workflows/:id/execute` invocation: the database
afterwards, the HTTP-level outcome, and how many external model calls were
made. -/
structure ExecResult where
  db : Db
  outcome : Except ExecError WorkflowExecution
  modelCalls : Nat
  deriving Repr

/-- The `POST /api/workflows/:id/execute` handler
(src/EmailManager/server/routes.ts:328-376): load the workflow scoped to the
user (404 if absent), fetch the user's emails, run the filter, reject an
empty selection (400), call `generateWorkflowSummary` (a throw is caught by
the route's catch, i.e. fatal with nothing persisted), then create the
execution record and set the workflow's `lastRunAt` to now. The generated
execution id is modelled as the fresh value `db.executions.length`;
`executedAt` is the column's `defaultNow()`. -/
def executeWorkflow (workflowId userId : String) (outcome : SummaryOutcome)
    (now : Nat) (db : Db) : ExecResult :=
  match getWorkflowById workflowId userId db with
  | none => ⟨db, .error .notFound, 0⟩
  | some workflow =>
      let allEmails := getEmailsByUserId workflow.userId db
      let filteredEmails := filterByLabels workflow.filterLabelIds allEmails
      if filteredEmails.length == 0 then ⟨db, .error .emptySelection, 0⟩
      else
        let sres := generateWorkflowSummary
          (filteredEmails.map fun e =>
            ⟨e.email.subject, e.email.sender, e.email.bodyPreview⟩)
          workflow.prompt outcome
        match sres.1 with
        | .error _ => ⟨db, .error .upstreamFailure, sres.2⟩
        | .ok summary =>
            let execution : WorkflowExecution :=
              ⟨db.executions.length, workflow.id, summary,
                filteredEmails.length, now⟩
            let db1 := { db with executions := db.executions ++ [execution] }
            let db2 := { db1 with
              workflows := db1.workflows.map fun w =>
                if w.id == workflow.id && w.userId == userId then
                  { w with lastRunAt := some now }
                else w }
            ⟨db2, .ok execution, sres.2⟩

/-- The label-assignment loop of the classify route
(src/EmailManager/server/routes.ts:151-157): `addLabelToEmail` for each
suggested label id in order, with `isAuto: true`; a throw aborts the loop
(the route's catch responds 500) leaving the writes made so far. -/
def addSuggestedLabels (labelIds : List String) (emailId userId : String)
    (db : Db) : Db × Bool :=
  match labelIds with
  | [] => (db, true)
  | labelId :: rest =>
      match addLabelToEmail emailId labelId true userId db with
      | .error _ => (db, false)
      | .ok db1 => addSuggestedLabels rest emailId userId db1

/-- Result of one `POST /api/emails/:id/classify` invocation. -/
structure ClassifyResult where
  db : Db
  outcome : Except ExecError (List String)
  modelCalls : Nat
  deriving Repr

/-- The `POST /api/emails/:id/classify` handler
(src/EmailManager/server/routes.ts:129-164): load the email scoped to the
user (404 if absent), reject with 400 "No labels available for
classification" when the user has zero labels, call `classifyEmail`, then
persist each suggested label id as an automatic association. -/
def classifyRoute (emailId userId : String) (outcome : ClassifyOutcome)
    (db : Db) : ClassifyResult :=
  match getEmailById emailId userId db with
  | none => ⟨db, .error .notFound, 0⟩
  | some email =>
      let labels := getLabelsByUserId userId db
      if labels.length == 0 then ⟨db, .error .notConfigured, 0⟩
      else
        let cres := classifyEmail email.email.subject email.email.bodyPreview
          labels outcome
        let added := addSuggestedLabels cres.1 emailId userId db
        if added.2 then ⟨added.1, .ok cres.1, cres.2⟩
        else ⟨added.1, .error .storageFailure, cres.2⟩

/-! Concrete sample data, used to instantiate the theorems below. -/

def labelL1 : Label := ⟨"L1", "u1", "Work", "blue"⟩

def emailE1 : Email :=
  ⟨"E1", "u1", "Standup notes", "Alice", "alice@example.com", 5, "notes", false⟩

def emailE2 : Email :=
  ⟨"E2", "u1", "Dinner", "Bob", "bob@example.com", 4, "dinner plans", false⟩

def workflowW1 : Workflow :=
  ⟨"W1", "u1", "Weekly digest", "weekly", some ["L1"], "Summarize these emails",
    true, some 3, none⟩

/-- Sample state: one user `u1` with two emails, one label, the association
(E1, L1), one workflow filtering on L1, and no executions yet. -/
def dbRun : Db :=
  ⟨[labelL1], [emailE1, emailE2], [⟨0, "E1", "L1", false⟩], [workflowW1], []⟩

/-- Sample state for the labelling scenarios: one user `u1` with one email,
one label, and no associations yet. -/
def dbLbl : Db := ⟨[labelL1], [emailE1], [], [], []⟩

/-- Sample state for C9: user `u1` has the email E1 but no labels at all. -/
def dbNoLabels : Db := ⟨[], [emailE1], [], [], []⟩

/-- A second sample workflow of `u1` filtering on a label no email has. -/
def workflowW2 : Workflow :=
  ⟨"W2", "u1", "Nothing matches", "biweekly", some ["L9"],
    "Summarize these emails", true, none, none⟩

/-- Sample state extending `dbRun` with the never-matching workflow W2. -/
def dbRun2 : Db :=
  ⟨[labelL1], [emailE1, emailE2], [⟨0, "E1", "L1", false⟩],
    [workflowW1, workflowW2], []⟩

end EmailClassifier

deriving instance DecidableEq for Except

namespace EmailClassifier

deriving instance DecidableEq for ExecResult
deriving instance DecidableEq for ClassifyResult

/-- A successful scoped workflow lookup returns a stored workflow matching
both the requested id and the requesting user. -/
lemma getWorkflowById_some {workflowId userId : String} {db : Db}
    {w : Workflow} (h : getWorkflowById workflowId userId db = some w) :
    w.id = workflowId ∧ w.userId = userId ∧ w ∈ db.workflows := by
  have hp := List.find?_some h
  have hm := List.mem_of_find?_eq_some h
  simp only [Bool.and_eq_true, beq_iff_eq] at hp
  exact ⟨hp.1, hp.2, hm⟩

/-- C1: the Filter Evaluator of the execute route is the reference filter:
with a non-empty `labelIds` list an email is kept iff one of its assigned
labels' ids is in the list; with an absent or empty list the input passes
through unchanged; and the output is always a subsequence of the input. -/
theorem C1_filter_evaluator_correct :
    (∀ (ids : List String) (emails : List EmailWithLabels), ids ≠ [] →
      ∀ e, e ∈ filterByLabels (some ids) emails ↔
        e ∈ emails ∧ ∃ p ∈ e.labels, p.2.id ∈ ids)
    ∧ (∀ (labelIds : Option (List String)) (emails : List EmailWithLabels),
        labelIds = none ∨ labelIds = some [] →
        filterByLabels labelIds emails = emails)
    ∧ ∀ (labelIds : Option (List String)) (emails : List EmailWithLabels),
        (filterByLabels labelIds emails).Sublist emails := by
  refine ⟨?_, ?_, ?_⟩
  · intro ids emails hne e
    have hlen : 0 < ids.length := List.length_pos.mpr hne
    simp [filterByLabels, hlen, List.mem_filter, List.any_eq_true,
      List.elem_iff]
  · rintro labelIds emails (rfl | rfl)
    · rfl
    · simp [filterByLabels]
  · intro labelIds emails
    match labelIds with
    | none => exact List.Sublist.refl _
    | some ids =>
        by_cases h : 0 < ids.length
        · simp [filterByLabels, h, List.filter_sublist]
        · simp [filterByLabels, h]

/-- Witness for C1 at the sample data: the labelled email E1 is kept by the
filter on `["L1"]` over `[E1-with-L1, E2-without-labels]`. -/
theorem C1_filter_evaluator_correct_witness :
    joinLabels emailE1 dbRun ∈
      filterByLabels (some ["L1"])
        [joinLabels emailE1 dbRun, joinLabels emailE2 dbRun] :=
  (C1_filter_evaluator_correct.1 ["L1"]
    [joinLabels emailE1 dbRun, joinLabels emailE2 dbRun] (by decide)
    (joinLabels emailE1 dbRun)).mpr (by decide)

/-- C7: given a parsed classifier response, `classifyEmail` returns exactly
the ids of the candidate labels whose name case-insensitively equals some
suggested name — so every returned id belongs to a candidate, and suggested
names matching no candidate are dropped. -/
theorem C7_classifier_intersects_candidates :
    ∀ (s b : String) (availableLabels : List Label)
      (suggested : List String) (lid : String),
      lid ∈ (classifyEmail s b availableLabels (.parsed suggested)).1 ↔
        ∃ l ∈ availableLabels, l.id = lid ∧
          ∃ n ∈ suggested, n.toLower = l.name.toLower := by
  intro s b availableLabels suggested lid
  by_cases hl : availableLabels = []
  · subst hl; simp [classifyEmail]
  · have hlen : (availableLabels.length == 0) = false := by
      simp [List.length_eq_zero, hl]
    simp only [classifyEmail, hlen, Bool.false_eq_true, if_false,
      List.mem_map, List.mem_filter, List.any_eq_true, beq_iff_eq]
    tauto

/-- C8: any API or parse failure of the external classifier is swallowed:
`classifyEmail` returns the empty list of label ids (so the classify route's
assignment loop creates zero associations), in contrast to the summarizer,
whose API failure is re-thrown as an error. -/
theorem C8_classification_failures_swallowed :
    (∀ (s b : String) (availableLabels : List Label),
      (classifyEmail s b availableLabels .apiFailure).1 = []
      ∧ (classifyEmail s b availableLabels .parseFailure).1 = [])
    ∧ ∀ (emailData : List EmailData) (p : String), emailData ≠ [] →
        (generateWorkflowSummary emailData p .apiFailure).1 = .error () := by
  constructor
  · intro s b availableLabels
    by_cases h : availableLabels.length = 0 <;> simp [classifyEmail, h]
  · intro emailData p h
    have hlen : (emailData.length == 0) = false := by
      simp [List.length_eq_zero, h]
    simp [generateWorkflowSummary, hlen]

/-- Witness for C8: a failing classifier call over one candidate label
yields no label ids, while a failing summarizer call over one email is an
error. -/
theorem C8_classification_failures_swallowed_witness :
    (classifyEmail "a" "b" [labelL1] .apiFailure).1 = []
    ∧ (generateWorkflowSummary [⟨"s", "x", "p"⟩] "prompt" .apiFailure).1 =
        .error () :=
  ⟨(C8_classification_failures_swallowed.1 "a" "b" [labelL1]).1,
    C8_classification_failures_swallowed.2 [⟨"s", "x", "p"⟩] "prompt"
      (by decide)⟩

/-- C9: a classification request by a user with zero labels is rejected
with the NotConfigured condition, leaving the database unchanged and making
no external model call; and `classifyEmail` itself, on an empty candidate
list, returns no labels and performs zero model calls whatever the model
would have answered. -/
theorem C9_zero_labels_rejected_before_model_call :
    (∀ (emailId userId : String) (outcome : ClassifyOutcome) (db : Db)
        (e : EmailWithLabels),
      getEmailById emailId userId db = some e →
      getLabelsByUserId userId db = [] →
      classifyRoute emailId userId outcome db = ⟨db, .error .notConfigured, 0⟩)
    ∧ ∀ (s b : String) (outcome : ClassifyOutcome),
        classifyEmail s b [] outcome = ([], 0) := by
  constructor
  · intro emailId userId outcome db e hemail hlabels
    unfold classifyRoute
    rw [hemail]
    simp [hlabels]
  · intro s b outcome
    simp [classifyEmail]

/-- Witness for C9: classifying E1 for the label-less user `u1` is rejected
as not configured with zero model calls and no state change. -/
theorem C9_zero_labels_rejected_before_model_call_witness :
    classifyRoute "E1" "u1" .apiFailure dbNoLabels =
      ⟨dbNoLabels, .error .notConfigured, 0⟩ :=
  C9_zero_labels_rejected_before_model_call.1 "E1" "u1" .apiFailure dbNoLabels
    (joinLabels emailE1 dbNoLabels) (by decide) (by decide)

/-- C10: `generateWorkflowSummary` never succeeds with the empty string —
a null or empty model content is replaced by the literal
"Summary generation failed." (which is then an ordinary success, eligible
for persistence) — and an empty email list short-circuits to the literal
"No emails found matching the workflow criteria." with zero model calls. -/
theorem C10_summary_fallback_strings :
    (∀ (emailData : List EmailData) (p : String) (outcome : SummaryOutcome)
        (s : String),
      (generateWorkflowSummary emailData p outcome).1 = .ok s → s ≠ "")
    ∧ (∀ (p : String) (outcome : SummaryOutcome),
        generateWorkflowSummary [] p outcome =
          (.ok "No emails found matching the workflow criteria.", 0))
    ∧ ∀ (emailData : List EmailData) (p : String), emailData ≠ [] →
        (generateWorkflowSummary emailData p (.content none)).1 =
            .ok "Summary generation failed."
        ∧ (generateWorkflowSummary emailData p (.content (some ""))).1 =
            .ok "Summary generation failed." := by
  refine ⟨?_, ?_, ?_⟩
  · intro emailData p outcome s h
    by_cases hlen : emailData.length = 0
    · simp [generateWorkflowSummary, hlen] at h
      intro hs
      rw [hs] at h
      exact absurd h (by decide)
    · cases outcome with
      | apiFailure => simp [generateWorkflowSummary, hlen] at h
      | content c =>
          cases c with
          | none =>
              simp [generateWorkflowSummary, hlen] at h
              intro hs
              rw [hs] at h
              exact absurd h (by decide)
          | some cv =>
              simp [generateWorkflowSummary, hlen] at h
              by_cases hc : cv = ""
              · simp [hc] at h
                intro hs
                rw [hs] at h
                exact absurd h (by decide)
              · rw [if_neg hc] at h
                intro hs
                rw [hs] at h
                exact hc h
  · intro p outcome
    simp [generateWorkflowSummary]
  · intro emailData p h
    have hlen : (emailData.length == 0) = false := by
      simp [List.length_eq_zero, h]
    exact ⟨by simp [generateWorkflowSummary, hlen],
      by simp [generateWorkflowSummary, hlen]⟩

/-- Witness for C10: with one email and a null model content, the fallback
literal is returned as a success. -/
theorem C10_summary_fallback_strings_witness :
    (generateWorkflowSummary [⟨"s", "x", "p"⟩] "q" (.content none)).1 =
      .ok "Summary generation failed." :=
  (C10_summary_fallback_strings.2.2 [⟨"s", "x", "p"⟩] "q" (by decide)).1

/-- C6: the scoped workflow lookup only ever returns a stored workflow with
the requested id owned by the requesting user; when no such workflow exists
(absent id, or owned by a different user) the execute route fails with
NotFound, changes nothing, and makes no model call. -/
theorem C6_workflow_lookup_fails_closed :
    (∀ (workflowId userId : String) (db : Db) (w : Workflow),
      getWorkflowById workflowId userId db = some w →
      w.id = workflowId ∧ w.userId = userId ∧ w ∈ db.workflows)
    ∧ ∀ (workflowId userId : String) (outcome : SummaryOutcome) (now : Nat)
        (db : Db),
        (∀ w ∈ db.workflows, ¬(w.id = workflowId ∧ w.userId = userId)) →
        executeWorkflow workflowId userId outcome now db =
          ⟨db, .error .notFound, 0⟩ := by
  constructor
  · intro workflowId userId db w h
    exact getWorkflowById_some h
  · intro workflowId userId outcome now db h
    have hnone : getWorkflowById workflowId userId db = none := by
      apply List.find?_eq_none.mpr
      intro w hw
      simp only [Bool.and_eq_true, beq_iff_eq, not_and]
      intro h1 h2
      exact h w hw ⟨h1, h2⟩
    unfold executeWorkflow
    rw [hnone]

/-- Witness for C6: looking up W1 as its owner returns it; executing W1 as
the other user `u2` is NotFound with no state change. -/
theorem C6_workflow_lookup_fails_closed_witness :
    (workflowW1.id = "W1" ∧ workflowW1.userId = "u1"
      ∧ workflowW1 ∈ dbRun.workflows)
    ∧ executeWorkflow "W1" "u2" .apiFailure 10 dbRun =
        ⟨dbRun, .error .notFound, 0⟩ :=
  ⟨C6_workflow_lookup_fails_closed.1 "W1" "u1" dbRun workflowW1 (by decide),
    C6_workflow_lookup_fails_closed.2 "W1" "u2" .apiFailure 10 dbRun
      (by decide)⟩

/-- C4: when the filter selects zero emails the run stops with the
EmptySelection rejection: the database is returned unchanged (no execution
record, no last-run update) and zero summary model calls are made. -/
theorem C4_empty_selection_short_circuit :
    ∀ (workflowId userId : String) (outcome : SummaryOutcome) (now : Nat)
      (db : Db) (w : Workflow),
      getWorkflowById workflowId userId db = some w →
      filterByLabels w.filterLabelIds (getEmailsByUserId w.userId db) = [] →
      executeWorkflow workflowId userId outcome now db =
        ⟨db, .error .emptySelection, 0⟩ := by
  intro workflowId userId outcome now db w hw hempty
  unfold executeWorkflow
  rw [hw]
  simp [hempty]

/-- Witness for C4: executing W2 (filter on the unassigned label L9)
rejects with EmptySelection, leaving the state untouched. -/
theorem C4_empty_selection_short_circuit_witness :
    executeWorkflow "W2" "u1" (.content (some "x")) 10 dbRun2 =
      ⟨dbRun2, .error .emptySelection, 0⟩ :=
  C4_empty_selection_short_circuit "W2" "u1" (.content (some "x")) 10 dbRun2
    workflowW2 (by decide) (by decide)

/-- C5: when the summarizer call throws, the execute route surfaces the
failure after exactly one model call and persists nothing: the database is
returned exactly as it was (no execution record, last-run marker
untouched). -/
theorem C5_summarizer_failure_persists_nothing :
    ∀ (workflowId userId : String) (now : Nat) (db : Db) (w : Workflow),
      getWorkflowById workflowId userId db = some w →
      filterByLabels w.filterLabelIds (getEmailsByUserId w.userId db) ≠ [] →
      executeWorkflow workflowId userId .apiFailure now db =
        ⟨db, .error .upstreamFailure, 1⟩ := by
  intro workflowId userId now db w hw hne
  unfold executeWorkflow
  rw [hw]
  have hlen : ((filterByLabels w.filterLabelIds
      (getEmailsByUserId w.userId db)).length == 0) = false := by
    simp [List.length_eq_zero, hne]
  simp [hlen, generateWorkflowSummary, List.length_map, hne,
    List.length_eq_zero]

/-- Witness for C5: executing W1 with a throwing summarizer leaves `dbRun`
unchanged and reports the upstream failure. -/
theorem C5_summarizer_failure_persists_nothing_witness :
    executeWorkflow "W1" "u1" .apiFailure 10 dbRun =
      ⟨dbRun, .error .upstreamFailure, 1⟩ :=
  C5_summarizer_failure_persists_nothing "W1" "u1" 10 dbRun workflowW1
    (by decide) (by decide)

/-- C3 at its failing input: in `dbLbl` (one email E1, one label L1, both
owned by `u1`, no associations) two identical `addLabelToEmail` calls for
the pair (E1, L1) both succeed and leave TWO `emailLabels` rows for the
pair — the `email_labels` table has no unique constraint on
(emailId, labelId), so `ON CONFLICT DO NOTHING` never fires for a duplicate
pair and the second call inserts a second row instead of being a no-op. -/
theorem C3_duplicate_assignment_inserts_second_row :
    ∃ db1 db2 : Db,
      addLabelToEmail "E1" "L1" false "u1" dbLbl = .ok db1
      ∧ addLabelToEmail "E1" "L1" false "u1" db1 = .ok db2
      ∧ pairCount "E1" "L1" db1 = 1
      ∧ pairCount "E1" "L1" db2 = 2 :=
  ⟨⟨[labelL1], [emailE1], [⟨0, "E1", "L1", false⟩], [], []⟩,
    ⟨[labelL1], [emailE1],
      [⟨0, "E1", "L1", false⟩, ⟨1, "E1", "L1", false⟩], [], []⟩,
    by decide, by decide, by decide, by decide⟩

/-- C2: on a successful summary over a non-empty selection, exactly one
execution record is appended, carrying the selection's size as `emailCount`
and the returned summary text; every stored copy of the workflow (matched
by id and owner) has its last-run marker set to `now`, which under clock
monotonicity (`tPre ≤ now` for any timestamp observed before the call) is
at least the pre-call timestamp. -/
theorem C2_success_records_one_execution :
    ∀ (workflowId userId : String) (outcome : SummaryOutcome) (now : Nat)
      (db : Db) (w : Workflow) (s : String) (tPre : Nat),
      getWorkflowById workflowId userId db = some w →
      filterByLabels w.filterLabelIds (getEmailsByUserId w.userId db) ≠ [] →
      (generateWorkflowSummary
          ((filterByLabels w.filterLabelIds
            (getEmailsByUserId w.userId db)).map
            fun e => ⟨e.email.subject, e.email.sender, e.email.bodyPreview⟩)
          w.prompt outcome).1 = .ok s →
      tPre ≤ now →
      ∃ execution : WorkflowExecution,
        (executeWorkflow workflowId userId outcome now db).outcome =
            .ok execution
        ∧ (executeWorkflow workflowId userId outcome now db).db.executions =
            db.executions ++ [execution]
        ∧ execution.emailCount =
            (filterByLabels w.filterLabelIds
              (getEmailsByUserId w.userId db)).length
        ∧ execution.summary = s
        ∧ (∃ w2 ∈ (executeWorkflow workflowId userId outcome now
              db).db.workflows,
            w2.id = workflowId ∧ w2.userId = userId
              ∧ w2.lastRunAt = some now)
        ∧ ∀ w2 ∈ (executeWorkflow workflowId userId outcome now
            db).db.workflows,
            w2.id = workflowId → w2.userId = userId →
            ∃ t, w2.lastRunAt = some t ∧ tPre ≤ t := by
  intro workflowId userId outcome now db w s tPre hw hne hs hclock
  obtain ⟨hid, huid, hmem⟩ := getWorkflowById_some hw
  have hlen : ((filterByLabels w.filterLabelIds
      (getEmailsByUserId w.userId db)).length == 0) = false := by
    simp [List.length_eq_zero, hne]
  have hexec : executeWorkflow workflowId userId outcome now db =
      ⟨⟨db.labels, db.emails, db.emailLabels,
        db.workflows.map fun w2 =>
          if w2.id == w.id && w2.userId == userId then
            { w2 with lastRunAt := some now }
          else w2,
        db.executions ++
          [⟨db.executions.length, w.id, s,
            (filterByLabels w.filterLabelIds
              (getEmailsByUserId w.userId db)).length, now⟩]⟩,
        .ok ⟨db.executions.length, w.id, s,
          (filterByLabels w.filterLabelIds
            (getEmailsByUserId w.userId db)).length, now⟩,
        (generateWorkflowSummary
          ((filterByLabels w.filterLabelIds
            (getEmailsByUserId w.userId db)).map
            fun e => ⟨e.email.subject, e.email.sender, e.email.bodyPreview⟩)
          w.prompt outcome).2⟩ := by
    unfold executeWorkflow
    rw [hw]
    simp only [hlen, Bool.false_eq_true, if_false, hs]
  refine ⟨⟨db.executions.length, w.id, s,
    (filterByLabels w.filterLabelIds
      (getEmailsByUserId w.userId db)).length, now⟩,
    by rw [hexec], by rw [hexec], rfl, rfl, ?_, ?_⟩
  · rw [hexec]
    refine ⟨{ w with lastRunAt := some now }, ?_, by simpa using hid,
      by simpa using huid, rfl⟩
    have himg : { w with lastRunAt := some now } =
        (fun w2 => if w2.id == w.id && w2.userId == userId then
          { w2 with lastRunAt := some now } else w2) w := by
      simp [huid]
    rw [himg]
    exact List.mem_map_of_mem _ hmem
  · rw [hexec]
    intro w2 hw2 h2id h2uid
    obtain ⟨w2', hmem', heq⟩ := List.mem_map.mp hw2
    by_cases hcond : (w2'.id == w.id && w2'.userId == userId) = true
    · rw [if_pos hcond] at heq
      exact ⟨now, by rw [← heq], hclock⟩
    · rw [if_neg hcond] at heq
      subst heq
      exact absurd (by simp [h2id, hid, h2uid]) hcond

/-- Witness for C2: executing W1 over `dbRun` with a summarizer returning
"All good" appends exactly one execution with emailCount 1 and that summary,
and stamps W1's last-run marker with a time at least the pre-call clock 3. -/
theorem C2_success_records_one_execution_witness :
    ∃ execution : WorkflowExecution,
      (executeWorkflow "W1" "u1" (.content (some "All good")) 10
          dbRun).outcome = .ok execution
      ∧ (executeWorkflow "W1" "u1" (.content (some "All good")) 10
          dbRun).db.executions = dbRun.executions ++ [execution]
      ∧ execution.emailCount =
          (filterByLabels workflowW1.filterLabelIds
            (getEmailsByUserId workflowW1.userId dbRun)).length
      ∧ execution.summary = "All good"
      ∧ (∃ w2 ∈ (executeWorkflow "W1" "u1" (.content (some "All good")) 10
            dbRun).db.workflows,
          w2.id = "W1" ∧ w2.userId = "u1" ∧ w2.lastRunAt = some 10)
      ∧ ∀ w2 ∈ (executeWorkflow "W1" "u1" (.content (some "All good")) 10
          dbRun).db.workflows,
          w2.id = "W1" → w2.userId = "u1" →
          ∃ t, w2.lastRunAt = some t ∧ 3 ≤ t :=
  C2_success_records_one_execution "W1" "u1" (.content (some "All good")) 10
    dbRun workflowW1 "All good" 3 (by decide) (by decide) (by decide)
    (by decide)

end EmailClassifier
